import Mathlib

/-!
Shallow embedding of the distrobuild scheduler's reconciliation and signing
subsystem (src/distrobuild_scheduler/periodic_tasks.py).

External RPC collaborators (the koji session, the MBS client, the signer) are
modelled as explicit environments of pure functions; every external call a run
performs is recorded in a trace of `KojiCall` values.  The tortoise `@atomic()`
decorator is modelled by returning `Option Build`: `some b` means the
transaction committed with `b` as the saved row, `none` means an exception
escaped the unit of work and the transaction rolled back, leaving the row
unchanged.  Machine timestamps are `Nat`.
-/

/-- Build status enum referenced by the code as `BuildStatus.BUILDING`,
`BuildStatus.SUCCEEDED`, `BuildStatus.FAILED`, `BuildStatus.CANCELLED`. -/
inductive BuildStatus
  | BUILDING
  | SUCCEEDED
  | FAILED
  | CANCELLED
deriving DecidableEq, Repr

/-- One Build row, with the fields `periodic_tasks.py` reads and writes:
`koji_id`, `mbs_id`, `package_id`, `status`, `signed`. -/
structure Build where
  id : Nat
  koji_id : Option Nat
  mbs_id : Option Nat
  package_id : Nat
  status : BuildStatus
  signed : Bool
deriving DecidableEq, Repr

/-- One Package row, with the fields the code touches: `name` (read in
`packageListAdd`) and `last_build` (written on a SUCCEEDED transition). -/
structure Package where
  id : Nat
  name : String
  last_build : Option Nat
deriving DecidableEq, Repr

/-- The record store: the tables the two periodic loops query and update. -/
structure Db where
  builds : List Build
  packages : List Package
deriving DecidableEq, Repr

/-- Python truthiness of an optional integer id field, as in
`if build.koji_id:` and `elif build.mbs_id:`. -/
def optTruthy (o : Option Nat) : Bool :=
  match o with
  | none => false
  | some n => n != 0

/-- One entry of `koji_session.listBuilds(taskID=...)`: the fields used are
`build_id` and `nvr`. -/
structure BuildTask where
  build_id : Nat
  nvr : String
deriving DecidableEq, Repr

/-- One entry of `koji_session.listBuildRPMs(...)`: the fields used are `id`,
`nvr` and `arch`. -/
structure Rpm where
  id : Nat
  nvr : String
  arch : String
deriving DecidableEq, Repr

/-- An external call issued through the koji session or the signer during a
signing-coordinator run, in program order. -/
inductive KojiCall
  | packageListAdd (tag pkg owner : String)
  | listBuilds (taskId : Nat)
  | queryHistory (buildId : Nat)
  | tagBuild (tag nvr : String)
  | listBuildRPMs (buildId : Nat)
  | queryRPMSigs (rpmId : Nat)
  | signPackage (nvrArch : String)
  | writeSignedRPM (nvrArch key : String)
deriving DecidableEq, Repr

/-- The koji session and signer as seen by `atomic_sign_unsigned_builds`:
responses of the query calls, and for each `nvr.arch` whether
`sign_koji_package` raises. -/
structure KojiEnv where
  listBuilds : Nat → List BuildTask
  queryHistoryTagListing : Nat → Option (List String)
  listBuildRPMs : Nat → List Rpm
  queryRPMSigs : Nat → List String
  signFails : String → Bool

/-- The inner loop over `rpm_sigs`: its whole body is
`if rpm_sig["sigkey"] == settings.sigul_key_id: continue`, so every iteration
proceeds to the next one and the loop computes nothing. -/
def rpmSigsScan (key : String) : List String → Unit
  | [] => ()
  | sig :: rest =>
    if sig == key then rpmSigsScan key rest else rpmSigsScan key rest

/-- Processing of one RPM of a build task: query its signatures, run the
no-op sigkey scan, invoke the signer on `nvr.arch` (aborting on failure), then
record the signed RPM under the configured key. -/
def processRpm (env : KojiEnv) (key : String) (rpm : Rpm) : List KojiCall × Bool :=
  let sigs := env.queryRPMSigs rpm.id
  let _ := rpmSigsScan key sigs
  let nvr_arch := rpm.nvr ++ "." ++ rpm.arch
  if env.signFails nvr_arch then
    ([KojiCall.queryRPMSigs rpm.id, KojiCall.signPackage nvr_arch], false)
  else
    ([KojiCall.queryRPMSigs rpm.id, KojiCall.signPackage nvr_arch,
      KojiCall.writeSignedRPM nvr_arch key], true)

/-- The loop over `build_rpms`: stops at the first signer failure. -/
def processRpms (env : KojiEnv) (key : String) : List Rpm → List KojiCall × Bool
  | [] => ([], true)
  | rpm :: rest =>
    let step := processRpm env key rpm
    if step.2 then
      let tail := processRpms env key rest
      (step.1 ++ tail.1, tail.2)
    else
      (step.1, false)

/-- The `tag_listing` scan: `should_tag` flips to `False` on every entry whose
`tag.name` equals the compose tag; a missing `tag_listing` key leaves it. -/
def histShouldTag (compose : String) (st : Bool) : Option (List String) → Bool
  | none => st
  | some listing => listing.foldl (fun s tagName => if tagName == compose then false else s) st

/-- Result of processing one build task inside the signing coordinator. -/
structure TaskStep where
  calls : List KojiCall
  shouldTag : Bool
  ok : Bool
deriving DecidableEq, Repr

/-- One iteration of the loop over `build_tasks`: query the tag history,
update `should_tag`, tag the build's NVR when `should_tag` is still true, then
process the task's RPMs. -/
def processTask (env : KojiEnv) (key compose : String) (st : Bool) (task : BuildTask) : TaskStep :=
  let hist := env.queryHistoryTagListing task.build_id
  let st2 := histShouldTag compose st hist
  let tagCalls := if st2 then [KojiCall.tagBuild compose task.nvr] else []
  let rpms := env.listBuildRPMs task.build_id
  let rpmStep := processRpms env key rpms
  { calls := KojiCall.queryHistory task.build_id :: tagCalls
      ++ KojiCall.listBuildRPMs task.build_id :: rpmStep.1,
    shouldTag := st2,
    ok := rpmStep.2 }

/-- The loop over `build_tasks`, threading the single `should_tag` variable
and stopping at the first signer failure. -/
def processTasks (env : KojiEnv) (key compose : String) : Bool → List BuildTask → List KojiCall × Bool
  | _, [] => ([], true)
  | st, task :: rest =>
    let step := processTask env key compose st task
    if step.ok then
      let tail := processTasks env key compose step.shouldTag rest
      (step.calls ++ tail.1, tail.2)
    else
      (step.calls, false)

/-- Embedding of `atomic_sign_unsigned_builds(build)`: for a task-backed build, register the
package against the compose tag, walk the build tasks (tagging and signing),
then set `signed = True` and save.  Returns the trace of external calls and
`some savedBuild` on commit, `none` when an exception rolled the transaction
back.  `key` is `settings.sigul_key_id`, `compose` is `tags.compose()`,
`pkgName` is `build.package.name`. -/
def atomic_sign_unsigned_builds (env : KojiEnv) (key compose : String)
    (build : Build) (pkgName : String) : List KojiCall × Option Build :=
  if optTruthy build.koji_id then
    let kid := build.koji_id.getD 0
    let head := [KojiCall.packageListAdd compose pkgName ("distrobuild"), KojiCall.listBuilds kid]
    let tasks := env.listBuilds kid
    let body := processTasks env key compose true tasks
    if body.2 then
      (head ++ body.1, some { build with signed := true })
    else
      (head ++ body.1, none)
  else
    ([], some build)

/-- Outcome of `koji_session.getTaskResult`: success, or one of the exception
kinds the code distinguishes (`koji.BuildError`, `xmlrpc.client.Fault`,
`koji.GenericError`). -/
inductive TaskResultOutcome
  | ok
  | buildError
  | fault
  | genericError
deriving DecidableEq, Repr

/-- Value of `koji.TASK_STATES["CLOSED"]`. -/
def TASK_STATE_CLOSED : Nat := 2

/-- Value of `koji.TASK_STATES["CANCELED"]`. -/
def TASK_STATE_CANCELED : Nat := 3

/-- Value of `koji.TASK_STATES["FAILED"]`. -/
def TASK_STATE_FAILED : Nat := 5

/-- The build-system and module-build clients as seen by
`atomic_check_build_status`: `getTaskInfo(...)["state"]` (which may raise),
`getTaskResult` outcomes, `mbs_client.get_build(...)["state_name"]` (which may
raise), and the current time `datetime.datetime.now()`. -/
structure StatusEnv where
  getTaskInfoState : Nat → Except Unit Nat
  getTaskResult : Nat → TaskResultOutcome
  mbsStateName : Nat → Except Unit String
  now : Nat

/-- Effect of one `atomic_check_build_status` run that completed: the build
row as saved (`buildSaved = false` when no save was executed), and
`packageLastBuild = some t` when the owning package's `last_build` was set to
`t` and saved. -/
structure CheckResult where
  build : Build
  buildSaved : Bool
  packageLastBuild : Option Nat
deriving DecidableEq, Repr

/-- Embedding of `atomic_check_build_status(build)`: dispatch on which backend id is
truthy, map the backend state to a status transition, and save.  `Except.error`
means an exception escaped the unit of work (transaction rolled back). -/
def atomic_check_build_status (env : StatusEnv) (build : Build) : Except Unit CheckResult :=
  if optTruthy build.koji_id then
    match env.getTaskInfoState (build.koji_id.getD 0) with
    | Except.error e => Except.error e
    | Except.ok state =>
      if state = TASK_STATE_CLOSED then
        Except.ok { build := { build with status := BuildStatus.SUCCEEDED },
                    buildSaved := true, packageLastBuild := some env.now }
      else if state = TASK_STATE_CANCELED then
        Except.ok { build := { build with status := BuildStatus.CANCELLED },
                    buildSaved := true, packageLastBuild := none }
      else if state = TASK_STATE_FAILED then
        match env.getTaskResult (build.koji_id.getD 0) with
        | TaskResultOutcome.ok =>
          Except.ok { build := build, buildSaved := true, packageLastBuild := none }
        | TaskResultOutcome.buildError =>
          Except.ok { build := { build with status := BuildStatus.FAILED },
                      buildSaved := true, packageLastBuild := none }
        | TaskResultOutcome.fault =>
          Except.ok { build := { build with status := BuildStatus.FAILED },
                      buildSaved := true, packageLastBuild := none }
        | TaskResultOutcome.genericError =>
          Except.ok { build := { build with status := BuildStatus.CANCELLED },
                      buildSaved := true, packageLastBuild := none }
      else
        Except.ok { build := build, buildSaved := false, packageLastBuild := none }
  else if optTruthy build.mbs_id then
    match env.mbsStateName (build.mbs_id.getD 0) with
    | Except.error e => Except.error e
    | Except.ok state =>
      if state = "ready" then
        Except.ok { build := { build with status := BuildStatus.SUCCEEDED },
                    buildSaved := true, packageLastBuild := some env.now }
      else if state = "failed" then
        Except.ok { build := { build with status := BuildStatus.FAILED },
                    buildSaved := true, packageLastBuild := none }
      else
        Except.ok { build := build, buildSaved := false, packageLastBuild := none }
  else
    Except.ok { build := build, buildSaved := false, packageLastBuild := none }

/-- Replace every build row matching the given id with the saved row. -/
def updateBuildIn (builds : List Build) (id : Nat) (b2 : Build) : List Build :=
  builds.map fun x => if x.id = id then b2 else x

/-- Python `Package.filter(id=...).get()` followed by `last_build = now; save()`. -/
def touchPackageIn (packages : List Package) (pid t : Nat) : List Package :=
  packages.map fun p => if p.id = pid then { p with last_build := some t } else p

/-- Commit the effect of one completed `atomic_check_build_status` run to the
record store. -/
def applyCheck (db : Db) (b : Build) (res : CheckResult) : Db :=
  { builds := if res.buildSaved then updateBuildIn db.builds b.id res.build else db.builds,
    packages :=
      match res.packageLastBuild with
      | some t => touchPackageIn db.packages b.package_id t
      | none => db.packages }

/-- The candidate filter of the status cycle:
`Build.filter(status=BuildStatus.BUILDING)`. -/
def statusCandidate (b : Build) : Bool :=
  b.status == BuildStatus.BUILDING

/-- The loop body of `check_build_status` over the fetched builds: the
`try`/`except` wraps the whole loop, so the first unit that raises ends the
cycle body (the error is logged) and the remaining builds are not processed. -/
def statusCycleGo (env : StatusEnv) : List Build → Db → Db
  | [], db => db
  | b :: rest, db =>
    match atomic_check_build_status env b with
    | Except.error _ => db
    | Except.ok res => statusCycleGo env rest (applyCheck db b res)

/-- One cycle of the `check_build_status` periodic task. -/
def statusCycle (env : StatusEnv) (db : Db) : Db :=
  statusCycleGo env (db.builds.filter statusCandidate) db

/-- The candidate filter of the signing cycle:
`Build.filter(signed=False, status=BuildStatus.SUCCEEDED)`. -/
def signingCandidate (b : Build) : Bool :=
  b.signed == false && b.status == BuildStatus.SUCCEEDED

/-- Lookup of `build.package.name` via the prefetched package relation. -/
def packageNameOf (db : Db) (pid : Nat) : String :=
  match db.packages.find? (fun p => p.id = pid) with
  | some p => p.name
  | none => ""

/-- The loop body of `sign_unsigned_builds` over the fetched builds: as in the
status cycle, the `try`/`except` wraps the whole loop, so the first unit that
raises ends the cycle body and skips the remaining builds. -/
def signingCycleGo (env : KojiEnv) (key compose : String) :
    List Build → Db → List KojiCall → Db × List KojiCall
  | [], db, acc => (db, acc)
  | b :: rest, db, acc =>
    let r := atomic_sign_unsigned_builds env key compose b (packageNameOf db b.package_id)
    match r.2 with
    | none => (db, acc ++ r.1)
    | some b2 =>
      signingCycleGo env key compose rest
        { builds := updateBuildIn db.builds b.id b2, packages := db.packages } (acc ++ r.1)

/-- One cycle of the `sign_unsigned_builds` periodic task; when
`settings.disable_sigul` is set the task never runs. -/
def signingCycle (env : KojiEnv) (key compose : String) (disableSigul : Bool) (db : Db) :
    Db × List KojiCall :=
  if disableSigul then (db, [])
  else signingCycleGo env key compose (db.builds.filter signingCandidate) db []

/-- The DB row for a build after one unit of work, given the unit's commit
result: a rollback leaves the row unchanged. -/
def persistedBuild (build : Build) (r : List KojiCall × Option Build) : Build :=
  r.2.getD build

/-- Number of signer invocations (`sign_koji_package` calls) in a trace. -/
def countSignCalls (calls : List KojiCall) : Nat :=
  calls.countP fun c =>
    match c with
    | KojiCall.signPackage _ => true
    | _ => false

/-- The invariant of claim C3: a signed build has status SUCCEEDED. -/
def SignedInvariant (db : Db) : Prop :=
  ∀ b ∈ db.builds, b.signed = true → b.status = BuildStatus.SUCCEEDED

instance (db : Db) : Decidable (SignedInvariant db) := by
  unfold SignedInvariant
  infer_instance

/-- Whether the `tag_listing` response contains an entry whose `tag.name`
equals the compose tag (the condition the `should_tag` scan tests). -/
def tagListingHas (compose : String) : Option (List String) → Bool
  | none => false
  | some listing => listing.any fun tagName => tagName == compose

/-- Signing key id (standing for `settings.sigul_key_id`) used in the concrete
scenarios. -/
def keyC : String := "KEY"

/-- Compose tag name (standing for `tags.compose()`) used in the concrete
scenarios. -/
def composeC : String := "compose"

/-- Package name used in the concrete scenarios. -/
def pkgC : String := "pkg"

/-- The nvr.arch of the single RPM in the C8 scenario. -/
def nvrArchC8 : String := "foo-2.0-1.noarch"

/-- The single build task of the C1 scenario. -/
def taskC1 : BuildTask := { build_id := 10, nvr := "pkg-1.0-1" }

/-! ### Concrete scenarios used by evaluations and witnesses -/

/-- Koji environment with one build task whose single RPM already carries a
signature under the configured key `KEY`, and a signer that always succeeds. -/
def envC1 : KojiEnv :=
  { listBuilds := fun _ => [{ build_id := 10, nvr := "pkg-1.0-1" }],
    queryHistoryTagListing := fun _ => some ["compose"],
    listBuildRPMs := fun _ => [{ id := 100, nvr := "pkg-1.0-1", arch := "x86_64" }],
    queryRPMSigs := fun _ => ["KEY"],
    signFails := fun _ => false }

/-- A successful, unsigned task-backed build. -/
def buildC1 : Build :=
  { id := 1, koji_id := some 44, mbs_id := none, package_id := 7,
    status := BuildStatus.SUCCEEDED, signed := false }

/-- Status environment where the backend query for task 41 raises and the
query for task 42 reports CLOSED. -/
def envC2 : StatusEnv :=
  { getTaskInfoState := fun n => if n = 41 then Except.error () else Except.ok TASK_STATE_CLOSED,
    getTaskResult := fun _ => TaskResultOutcome.ok,
    mbsStateName := fun _ => Except.ok (""),
    now := 1000 }

/-- Two BUILDING builds; processing the first one raises. -/
def dbC2 : Db :=
  { builds :=
      [{ id := 1, koji_id := some 41, mbs_id := none, package_id := 1,
         status := BuildStatus.BUILDING, signed := false },
       { id := 2, koji_id := some 42, mbs_id := none, package_id := 2,
         status := BuildStatus.BUILDING, signed := false }],
    packages :=
      [{ id := 1, name := "p1", last_build := none },
       { id := 2, name := "p2", last_build := none }] }

/-- Concrete environment for the C4 witness: task state FAILED, result fetch
failing with a build error. -/
def envC4 : StatusEnv :=
  { getTaskInfoState := fun _ => Except.ok TASK_STATE_FAILED,
    getTaskResult := fun _ => TaskResultOutcome.buildError,
    mbsStateName := fun _ => Except.ok (""),
    now := 0 }

/-- A task-backed BUILDING build (spec Scenario 2). -/
def buildC4 : Build :=
  { id := 3, koji_id := some 43, mbs_id := none, package_id := 3,
    status := BuildStatus.BUILDING, signed := false }

/-- Concrete environment for the C5 witness: task state CLOSED (spec
Scenario 1). -/
def envC5 : StatusEnv :=
  { getTaskInfoState := fun _ => Except.ok TASK_STATE_CLOSED,
    getTaskResult := fun _ => TaskResultOutcome.ok,
    mbsStateName := fun _ => Except.ok (""),
    now := 777 }

/-- A task-backed BUILDING build (spec Scenario 1). -/
def buildC5 : Build :=
  { id := 4, koji_id := some 42, mbs_id := none, package_id := 4,
    status := BuildStatus.BUILDING, signed := false }

/-- Concrete environment for the C6 witness: module build 7 reports failed
(spec Scenario 3). -/
def envC6 : StatusEnv :=
  { getTaskInfoState := fun _ => Except.error (),
    getTaskResult := fun _ => TaskResultOutcome.ok,
    mbsStateName := fun _ => Except.ok ("failed"),
    now := 0 }

/-- A module-build-backed BUILDING build (spec Scenario 3). -/
def buildC6 : Build :=
  { id := 5, koji_id := none, mbs_id := some 7, package_id := 5,
    status := BuildStatus.BUILDING, signed := false }

/-- Koji environment for the C8 witness: one build task with one RPM, no
existing signatures, and a signer that always fails. -/
def envC8 : KojiEnv :=
  { listBuilds := fun _ => [{ build_id := 20, nvr := "foo-2.0-1" }],
    queryHistoryTagListing := fun _ => none,
    listBuildRPMs := fun _ => [{ id := 200, nvr := "foo-2.0-1", arch := "noarch" }],
    queryRPMSigs := fun _ => [],
    signFails := fun _ => true }

/-- A successful, unsigned task-backed build for the C8 witness. -/
def buildC8 : Build :=
  { id := 6, koji_id := some 50, mbs_id := none, package_id := 6,
    status := BuildStatus.SUCCEEDED, signed := false }

/-- A successful, unsigned module-build-backed build for the C9 witness. -/
def buildC9 : Build :=
  { id := 7, koji_id := none, mbs_id := some 7, package_id := 7,
    status := BuildStatus.SUCCEEDED, signed := false }

/-- Record stores for the C3 witness: one build of each flavor, satisfying the
signed-implies-succeeded invariant. -/
def dbC3 : Db :=
  { builds :=
      [{ id := 1, koji_id := some 41, mbs_id := none, package_id := 1,
         status := BuildStatus.BUILDING, signed := false },
       { id := 2, koji_id := some 42, mbs_id := none, package_id := 1,
         status := BuildStatus.SUCCEEDED, signed := false },
       { id := 3, koji_id := some 43, mbs_id := none, package_id := 2,
         status := BuildStatus.SUCCEEDED, signed := true }],
    packages :=
      [{ id := 1, name := "p1", last_build := none },
       { id := 2, name := "p2", last_build := some 5 }] }

/-! ### Theorems -/

/-- Claim C1 (code evaluation): on a build whose only RPM already has a
signature under the configured key, the coordinator still invokes the signer
once — the sigkey guard is a loop whose entire body is `continue`, so it skips
nothing.  The claim (and spec section 4.3 step 3b / Scenario 4) requires zero
signer invocations here. -/
theorem C1_signer_invoked_despite_existing_signature :
    envC1.queryRPMSigs 100 = ["KEY"] ∧
    countSignCalls (atomic_sign_unsigned_builds envC1 keyC composeC buildC1 pkgC).1 = 1 :=
  ⟨rfl, rfl⟩

/-- Claim C2 (code evaluation): with two BUILDING candidates where the first
unit of work raises, the cycle's `try`/`except` — which wraps the whole loop,
not the per-build body — swallows the error and ends the cycle, so the second
build is left BUILDING even though its backend reports CLOSED.  The claim
requires the second build to still be processed (becoming SUCCEEDED). -/
theorem C2_sibling_failure_aborts_cycle :
    envC2.getTaskInfoState 41 = Except.error () ∧
    envC2.getTaskInfoState 42 = Except.ok TASK_STATE_CLOSED ∧
    (statusCycle envC2 dbC2).builds.map (fun b => b.status)
      = [BuildStatus.BUILDING, BuildStatus.BUILDING] :=
  ⟨rfl, rfl, rfl⟩

/-! ### Status reconciler: per-state mapping theorems -/

/-- Claim C4: for a task-backed BUILDING build whose task state is FAILED, the
reconciler fetches the task result; a build error or transport fault maps to
FAILED, a generic backend error maps to CANCELLED, and in every branch
(including a successful fetch) the build row is saved before the branch
exits. -/
theorem C4_failed_state_result_mapping (env : StatusEnv) (build : Build)
    (h1 : optTruthy build.koji_id = true)
    (h2 : env.getTaskInfoState (build.koji_id.getD 0) = Except.ok TASK_STATE_FAILED) :
    atomic_check_build_status env build =
      Except.ok
        { build :=
            { build with status :=
                match env.getTaskResult (build.koji_id.getD 0) with
                | TaskResultOutcome.ok => build.status
                | TaskResultOutcome.buildError => BuildStatus.FAILED
                | TaskResultOutcome.fault => BuildStatus.FAILED
                | TaskResultOutcome.genericError => BuildStatus.CANCELLED },
          buildSaved := true, packageLastBuild := none } := by
  unfold atomic_check_build_status
  rw [h1, h2]
  cases h3 : env.getTaskResult (build.koji_id.getD 0) <;> simp [h3, TASK_STATE_FAILED,
    TASK_STATE_CLOSED, TASK_STATE_CANCELED]

/-- Witness for C4 at a concrete input: task 43 FAILED, result fetch raising a
build error, so the saved build has status FAILED. -/
theorem C4_failed_state_result_mapping_witness :
    optTruthy buildC4.koji_id = true ∧
    atomic_check_build_status envC4 buildC4 =
      Except.ok { build := { buildC4 with status := BuildStatus.FAILED },
                  buildSaved := true, packageLastBuild := none } :=
  ⟨rfl, C4_failed_state_result_mapping envC4 buildC4 rfl rfl⟩

/-- Claim C5: for a task-backed BUILDING build, task state CLOSED maps to
SUCCEEDED with the owning package's last_build set to the current time, and
any task state other than CLOSED, CANCELED or FAILED changes neither the build
nor the package that cycle. -/
theorem C5_closed_maps_to_succeeded (env : StatusEnv) (build : Build)
    (h1 : optTruthy build.koji_id = true) :
    (env.getTaskInfoState (build.koji_id.getD 0) = Except.ok TASK_STATE_CLOSED →
      atomic_check_build_status env build =
        Except.ok { build := { build with status := BuildStatus.SUCCEEDED },
                    buildSaved := true, packageLastBuild := some env.now }) ∧
    (∀ s, env.getTaskInfoState (build.koji_id.getD 0) = Except.ok s →
      s ≠ TASK_STATE_CLOSED → s ≠ TASK_STATE_CANCELED → s ≠ TASK_STATE_FAILED →
      atomic_check_build_status env build =
        Except.ok { build := build, buildSaved := false, packageLastBuild := none }) := by
  constructor
  · intro h2
    unfold atomic_check_build_status
    rw [h1, h2]
    simp
  · intro s h2 hc hca hf
    unfold atomic_check_build_status
    rw [h1, h2]
    simp [hc, hca, hf]

/-- Witness for C5 at a concrete input: task 42 CLOSED, so the build becomes
SUCCEEDED and the package timestamp is written with the current time 777. -/
theorem C5_closed_maps_to_succeeded_witness :
    optTruthy buildC5.koji_id = true ∧
    (atomic_check_build_status envC5 buildC5 =
      Except.ok { build := { buildC5 with status := BuildStatus.SUCCEEDED },
                  buildSaved := true, packageLastBuild := some 777 }) :=
  ⟨rfl, (C5_closed_maps_to_succeeded envC5 buildC5 rfl).1 rfl⟩

/-- Claim C6: for a module-build-backed BUILDING build, backend state ready
maps to SUCCEEDED with the package timestamp updated, state failed maps to
FAILED without touching the package or the signed flag, and any other state
leaves the build unchanged. -/
theorem C6_mbs_state_mapping (env : StatusEnv) (build : Build)
    (h1 : optTruthy build.koji_id = false)
    (h2 : optTruthy build.mbs_id = true) :
    (env.mbsStateName (build.mbs_id.getD 0) = Except.ok ("ready") →
      atomic_check_build_status env build =
        Except.ok { build := { build with status := BuildStatus.SUCCEEDED },
                    buildSaved := true, packageLastBuild := some env.now }) ∧
    (env.mbsStateName (build.mbs_id.getD 0) = Except.ok ("failed") →
      atomic_check_build_status env build =
        Except.ok { build := { build with status := BuildStatus.FAILED },
                    buildSaved := true, packageLastBuild := none }) ∧
    (∀ s, env.mbsStateName (build.mbs_id.getD 0) = Except.ok s →
      s ≠ "ready" → s ≠ "failed" →
      atomic_check_build_status env build =
        Except.ok { build := build, buildSaved := false, packageLastBuild := none }) := by
  refine ⟨?_, ?_, ?_⟩
  · intro h3
    unfold atomic_check_build_status
    rw [h1, h2, h3]
    simp
  · intro h3
    unfold atomic_check_build_status
    rw [h1, h2, h3]
    simp
  · intro s h3 hr hf
    unfold atomic_check_build_status
    rw [h1, h2, h3]
    simp [hr, hf]

/-- Witness for C6 at a concrete input: module build 7 failed, so the build is
saved with status FAILED, signed stays false and the package is untouched. -/
theorem C6_mbs_state_mapping_witness :
    optTruthy buildC6.koji_id = false ∧ optTruthy buildC6.mbs_id = true ∧
    (atomic_check_build_status envC6 buildC6 =
      Except.ok { build := { buildC6 with status := BuildStatus.FAILED },
                  buildSaved := true, packageLastBuild := none }) :=
  ⟨rfl, rfl, (C6_mbs_state_mapping envC6 buildC6 rfl rfl).2.1 rfl⟩

/-! ### Tagging: should_tag and the tag operation -/

/-- The should_tag scan over one tag-history response: the flag keeps its old
value and clears exactly when a matching entry for the compose tag exists. -/
theorem histShouldTag_eq (compose : String) (st : Bool) (hist : Option (List String)) :
    histShouldTag compose st hist = (st && !(tagListingHas compose hist)) := by
  cases hist with
  | none => cases st <;> rfl
  | some listing =>
    simp only [histShouldTag, tagListingHas]
    induction listing generalizing st with
    | nil => cases st <;> rfl
    | cons a l ih =>
      simp only [List.foldl_cons, List.any_cons]
      rw [ih]
      cases h : a == compose <;> simp

/-- The RPM loop issues no tag operation. -/
theorem tagBuild_not_in_processRpms (env : KojiEnv) (key : String) (rpms : List Rpm)
    (t n : String) : KojiCall.tagBuild t n ∉ (processRpms env key rpms).1 := by
  induction rpms with
  | nil => simp [processRpms]
  | cons rpm rest ih =>
    simp only [processRpms, processRpm]
    by_cases h : env.signFails (rpm.nvr ++ "." ++ rpm.arch) = true
    · simp [h]
    · simp [h, ih]

/-- Claim C7: within one build-task iteration, should_tag flips to false
exactly when the tag history holds an entry for the compose tag, the tag
operation for the task's NVR is issued iff should_tag is still true after the
check, and hence a build already present in the tag's history is not tagged
again. -/
theorem C7_tag_decision (env : KojiEnv) (key compose : String) (st : Bool) (task : BuildTask) :
    (processTask env key compose st task).shouldTag
      = (st && !(tagListingHas compose (env.queryHistoryTagListing task.build_id))) ∧
    (KojiCall.tagBuild compose task.nvr ∈ (processTask env key compose st task).calls
      ↔ (processTask env key compose st task).shouldTag = true) ∧
    (tagListingHas compose (env.queryHistoryTagListing task.build_id) = true →
      KojiCall.tagBuild compose task.nvr ∉ (processTask env key compose st task).calls) := by
  have hst : (processTask env key compose st task).shouldTag
      = (st && !(tagListingHas compose (env.queryHistoryTagListing task.build_id))) := by
    simp only [processTask]
    exact histShouldTag_eq compose st (env.queryHistoryTagListing task.build_id)
  have hmem : KojiCall.tagBuild compose task.nvr ∈ (processTask env key compose st task).calls
      ↔ (processTask env key compose st task).shouldTag = true := by
    simp only [processTask]
    by_cases h : histShouldTag compose st (env.queryHistoryTagListing task.build_id) = true
    · simp [h]
    · simp [h, tagBuild_not_in_processRpms]
  refine ⟨hst, hmem, fun hhas hcontra => ?_⟩
  have := hmem.mp hcontra
  rw [hst, hhas] at this
  simp at this

/-- A task processed with should_tag already false issues no tag operation. -/
theorem tagBuild_not_in_false_task (env : KojiEnv) (key compose t n : String)
    (task : BuildTask) : KojiCall.tagBuild t n ∉ (processTask env key compose false task).calls := by
  simp only [processTask]
  rw [histShouldTag_eq]
  simp [tagBuild_not_in_processRpms]

/-- Claim C10: should_tag is shared across the loop over build tasks and never
reset: processing a task with should_tag false leaves it false, and once it is
false, no tag operation at all is issued for the remaining tasks. -/
theorem C10_should_tag_never_resets (env : KojiEnv) (key compose : String)
    (tasks : List BuildTask) :
    (∀ task, (processTask env key compose false task).shouldTag = false) ∧
    (∀ t n, KojiCall.tagBuild t n ∉ (processTasks env key compose false tasks).1) := by
  have hstep : ∀ task, (processTask env key compose false task).shouldTag = false := by
    intro task
    simp only [processTask]
    rw [histShouldTag_eq]
    simp
  refine ⟨hstep, fun t n => ?_⟩
  induction tasks with
  | nil => simp [processTasks]
  | cons task rest ih =>
    simp only [processTasks]
    rw [hstep task]
    by_cases hok : (processTask env key compose false task).ok = true
    · rw [if_pos hok]
      intro hmem
      rcases List.mem_append.mp hmem with h1 | h2
      · exact tagBuild_not_in_false_task env key compose t n task h1
      · exact ih h2
    · rw [if_neg hok]
      exact tagBuild_not_in_false_task env key compose t n task

/-- Witness for C7 at a concrete input: task 10's build is already in the
compose tag's history, so should_tag flips to false and the tag call is not
issued. -/
theorem C7_tag_decision_witness :
    ((processTask envC1 keyC composeC true taskC1).shouldTag
      = (true && !(tagListingHas composeC (envC1.queryHistoryTagListing taskC1.build_id))) ∧
    (KojiCall.tagBuild composeC taskC1.nvr ∈ (processTask envC1 keyC composeC true taskC1).calls
      ↔ (processTask envC1 keyC composeC true taskC1).shouldTag = true) ∧
    (tagListingHas composeC (envC1.queryHistoryTagListing taskC1.build_id) = true →
      KojiCall.tagBuild composeC taskC1.nvr
        ∉ (processTask envC1 keyC composeC true taskC1).calls)) :=
  C7_tag_decision envC1 keyC composeC true taskC1

/-- Witness for C10 at a concrete input. -/
theorem C10_should_tag_never_resets_witness :
    ((∀ task, (processTask envC1 keyC composeC false task).shouldTag = false) ∧
    (∀ t n, KojiCall.tagBuild t n ∉ (processTasks envC1 keyC composeC false [taskC1]).1)) :=
  C10_should_tag_never_resets envC1 keyC composeC [taskC1]

/-! ### Signer failure and rollback -/

/-- A signer invocation recorded for an nvr.arch the signer fails on means
that RPM's processing did not complete. -/
theorem signFail_aborts_processRpm (env : KojiEnv) (key : String) (rpm : Rpm) (a : String)
    (ha : env.signFails a = true)
    (hmem : KojiCall.signPackage a ∈ (processRpm env key rpm).1) :
    (processRpm env key rpm).2 = false := by
  simp only [processRpm] at hmem ⊢
  by_cases h : env.signFails (rpm.nvr ++ "." ++ rpm.arch) = true
  · simp [h]
  · rw [if_neg h] at hmem
    simp at hmem
    exact absurd (hmem ▸ ha) h

/-- A failing signer invocation inside the RPM loop aborts the loop. -/
theorem signFail_aborts_processRpms (env : KojiEnv) (key : String) (rpms : List Rpm)
    (a : String) (ha : env.signFails a = true)
    (hmem : KojiCall.signPackage a ∈ (processRpms env key rpms).1) :
    (processRpms env key rpms).2 = false := by
  induction rpms with
  | nil => simp [processRpms] at hmem
  | cons rpm rest ih =>
    simp only [processRpms] at hmem ⊢
    by_cases hok : (processRpm env key rpm).2 = true
    · rw [if_pos hok] at hmem ⊢
      rcases List.mem_append.mp hmem with h1 | h2
      · exact absurd hok (by simp [signFail_aborts_processRpm env key rpm a ha h1])
      · exact ih h2
    · rw [if_neg hok]

/-- A failing signer invocation inside one build task's processing means the
task step did not complete. -/
theorem signFail_aborts_processTask (env : KojiEnv) (key compose : String) (st : Bool)
    (task : BuildTask) (a : String) (ha : env.signFails a = true)
    (hmem : KojiCall.signPackage a ∈ (processTask env key compose st task).calls) :
    (processTask env key compose st task).ok = false := by
  simp only [processTask] at hmem ⊢
  by_cases h : histShouldTag compose st (env.queryHistoryTagListing task.build_id) = true
  · rw [if_pos h] at hmem
    simp at hmem
    exact signFail_aborts_processRpms env key _ a ha hmem
  · rw [if_neg h] at hmem
    simp at hmem
    exact signFail_aborts_processRpms env key _ a ha hmem

/-- A failing signer invocation inside the build-task loop aborts the loop. -/
theorem signFail_aborts_processTasks (env : KojiEnv) (key compose : String) (st : Bool)
    (tasks : List BuildTask) (a : String) (ha : env.signFails a = true)
    (hmem : KojiCall.signPackage a ∈ (processTasks env key compose st tasks).1) :
    (processTasks env key compose st tasks).2 = false := by
  induction tasks generalizing st with
  | nil => simp [processTasks] at hmem
  | cons task rest ih =>
    simp only [processTasks] at hmem ⊢
    by_cases hok : (processTask env key compose st task).ok = true
    · rw [if_pos hok] at hmem ⊢
      rcases List.mem_append.mp hmem with h1 | h2
      · exact absurd hok (by simp [signFail_aborts_processTask env key compose st task a ha h1])
      · exact ih _ h2
    · rw [if_neg hok]

/-- Claim C8: if the signer invocation fails for an artifact reached during a
signing-coordinator run, the transaction rolls back: the run commits nothing,
the build row stays as it was (in particular not marked signed), and a build
that was a signing candidate remains one for the next cycle. -/
theorem C8_signer_failure_rolls_back (env : KojiEnv) (key compose : String)
    (build : Build) (pkgName : String)
    (hfail : ∃ a, KojiCall.signPackage a
        ∈ (atomic_sign_unsigned_builds env key compose build pkgName).1 ∧
      env.signFails a = true) :
    (atomic_sign_unsigned_builds env key compose build pkgName).2 = none ∧
    persistedBuild build (atomic_sign_unsigned_builds env key compose build pkgName) = build ∧
    (signingCandidate build = true →
      signingCandidate
        (persistedBuild build (atomic_sign_unsigned_builds env key compose build pkgName))
        = true) := by
  obtain ⟨a, hmem, ha⟩ := hfail
  have hnone : (atomic_sign_unsigned_builds env key compose build pkgName).2 = none := by
    unfold atomic_sign_unsigned_builds at hmem ⊢
    by_cases hk : optTruthy build.koji_id = true
    · rw [if_pos hk] at hmem ⊢
      by_cases hb : (processTasks env key compose true
          (env.listBuilds (build.koji_id.getD 0))).2 = true
      · exfalso
        rw [if_pos hb] at hmem
        have h3 : KojiCall.signPackage a ∈ (processTasks env key compose true
            (env.listBuilds (build.koji_id.getD 0))).1 := by
          rcases List.mem_append.mp hmem with h1 | h2
          · simp at h1
          · exact h2
        have h4 := signFail_aborts_processTasks env key compose true _ a ha h3
        rw [h4] at hb
        exact Bool.false_ne_true hb
      · rw [if_neg hb]
    · rw [if_neg hk] at hmem
      simp at hmem
  have hpers : persistedBuild build (atomic_sign_unsigned_builds env key compose build pkgName)
      = build := by
    unfold persistedBuild
    rw [hnone]
    rfl
  refine ⟨hnone, hpers, fun hc => ?_⟩
  rw [hpers]
  exact hc

/-- Witness for C8 at a concrete input: the signer fails on the only RPM of
build task 20, so the run rolls back and the build stays a candidate. -/
theorem C8_signer_failure_rolls_back_witness :
    (KojiCall.signPackage nvrArchC8
        ∈ (atomic_sign_unsigned_builds envC8 keyC composeC buildC8 pkgC).1 ∧
      envC8.signFails nvrArchC8 = true) ∧
    (atomic_sign_unsigned_builds envC8 keyC composeC buildC8 pkgC).2 = none ∧
    persistedBuild buildC8 (atomic_sign_unsigned_builds envC8 keyC composeC buildC8 pkgC)
      = buildC8 ∧
    (signingCandidate buildC8 = true →
      signingCandidate
        (persistedBuild buildC8 (atomic_sign_unsigned_builds envC8 keyC composeC buildC8 pkgC))
        = true) :=
  ⟨⟨by decide, rfl⟩,
    C8_signer_failure_rolls_back envC8 keyC composeC buildC8 pkgC
      ⟨nvrArchC8, by decide, rfl⟩⟩

/-- Claim C9: for a build whose koji id is not set, one signing-coordinator
run performs no external calls and commits the build unchanged; a successful
unsigned module-build-backed build therefore stays a candidate of the signing
cycle's query. -/
theorem C9_no_koji_id_frame (env : KojiEnv) (key compose : String)
    (build : Build) (pkgName : String)
    (h : optTruthy build.koji_id = false) :
    atomic_sign_unsigned_builds env key compose build pkgName = ([], some build) ∧
    (build.status = BuildStatus.SUCCEEDED → build.signed = false →
      signingCandidate
        (persistedBuild build (atomic_sign_unsigned_builds env key compose build pkgName))
        = true) := by
  have heq : atomic_sign_unsigned_builds env key compose build pkgName = ([], some build) := by
    unfold atomic_sign_unsigned_builds
    rw [h]
    simp
  refine ⟨heq, fun hs hsig => ?_⟩
  unfold persistedBuild
  rw [heq]
  simp [signingCandidate, hs, hsig]

/-- Witness for C9 at a concrete input: a SUCCEEDED, unsigned module-build-
backed build is untouched by the coordinator and still satisfies the signing
cycle's candidate filter. -/
theorem C9_no_koji_id_frame_witness :
    optTruthy buildC9.koji_id = false ∧
    atomic_sign_unsigned_builds envC8 keyC composeC buildC9 pkgC = ([], some buildC9) ∧
    signingCandidate
      (persistedBuild buildC9 (atomic_sign_unsigned_builds envC8 keyC composeC buildC9 pkgC))
      = true :=
  ⟨rfl, (C9_no_koji_id_frame envC8 keyC composeC buildC9 pkgC rfl).1,
    (C9_no_koji_id_frame envC8 keyC composeC buildC9 pkgC rfl).2 rfl rfl⟩

/-! ### The signed-implies-succeeded invariant -/

/-- The status reconciler never writes the signed flag: a completed run saves
a build with the same signed value it read. -/
theorem check_ok_signed (env : StatusEnv) (b : Build) (res : CheckResult)
    (h : atomic_check_build_status env b = Except.ok res) : res.build.signed = b.signed := by
  unfold atomic_check_build_status at h
  repeat' split at h
  all_goals cases h
  all_goals rfl

/-- Replacing rows with a build satisfying the invariant keeps the invariant
over the build table. -/
theorem updateBuildIn_inv (builds : List Build) (id : Nat) (b2 : Build)
    (hb2 : b2.signed = true → b2.status = BuildStatus.SUCCEEDED)
    (h : ∀ x ∈ builds, x.signed = true → x.status = BuildStatus.SUCCEEDED) :
    ∀ x ∈ updateBuildIn builds id b2, x.signed = true → x.status = BuildStatus.SUCCEEDED := by
  intro x hx
  unfold updateBuildIn at hx
  rw [List.mem_map] at hx
  obtain ⟨y, hy, hxy⟩ := hx
  by_cases hid : y.id = id
  · rw [if_pos hid] at hxy
    exact hxy ▸ hb2
  · rw [if_neg hid] at hxy
    exact hxy ▸ h y hy

/-- Committing one completed status-reconciler run on an unsigned build
preserves the invariant. -/
theorem applyCheck_inv (db : Db) (b : Build) (res : CheckResult)
    (hsig : res.build.signed = b.signed) (hb : b.signed = false)
    (hdb : SignedInvariant db) : SignedInvariant (applyCheck db b res) := by
  intro x hx
  unfold applyCheck at hx
  dsimp only at hx
  by_cases hs : res.buildSaved = true
  · rw [if_pos hs] at hx
    refine updateBuildIn_inv db.builds b.id res.build (fun ht => ?_) hdb x hx
    rw [hsig, hb] at ht
    simp at ht
  · rw [if_neg hs] at hx
    exact hdb x hx

/-- The status-cycle loop preserves the invariant when every candidate is
unsigned. -/
theorem statusCycleGo_inv (env : StatusEnv) (cands : List Build) (db : Db)
    (hc : ∀ b ∈ cands, b.signed = false)
    (hdb : SignedInvariant db) : SignedInvariant (statusCycleGo env cands db) := by
  induction cands generalizing db with
  | nil => exact hdb
  | cons b rest ih =>
    simp only [statusCycleGo]
    cases hres : atomic_check_build_status env b with
    | error e => exact hdb
    | ok res =>
      refine ih _ (fun x hx => hc x (List.mem_cons_of_mem _ hx)) ?_
      exact applyCheck_inv db b res (check_ok_signed env b res hres)
        (hc b (List.mem_cons_self _ _)) hdb

/-- One status cycle preserves the invariant. -/
theorem statusCycle_inv (env : StatusEnv) (db : Db) (hdb : SignedInvariant db) :
    SignedInvariant (statusCycle env db) := by
  refine statusCycleGo_inv env _ db (fun b hb => ?_) hdb
  have hmem := List.mem_filter.mp hb
  have hstat : b.status = BuildStatus.BUILDING := by
    have h2 := hmem.2
    simp [statusCandidate] at h2
    exact h2
  cases hbs : b.signed
  · rfl
  · have h3 := hdb b hmem.1 hbs
    rw [h3] at hstat
    exact absurd hstat (by simp)

/-- A committed signing-coordinator run either marks the build signed (task
backend) or leaves it unchanged (no truthy koji id). -/
theorem sign_commit_shape (env : KojiEnv) (key compose : String) (b : Build) (pkg : String)
    (b2 : Build) (h : (atomic_sign_unsigned_builds env key compose b pkg).2 = some b2) :
    b2 = { b with signed := true } ∨ b2 = b := by
  unfold atomic_sign_unsigned_builds at h
  by_cases hk : optTruthy b.koji_id = true
  · rw [if_pos hk] at h
    by_cases hb : (processTasks env key compose true (env.listBuilds (b.koji_id.getD 0))).2 = true
    · rw [if_pos hb] at h
      simp at h
      exact Or.inl h.symm
    · rw [if_neg hb] at h
      simp at h
  · rw [if_neg hk] at h
    simp at h
    exact Or.inr h.symm

/-- The signing-cycle loop preserves the invariant when every candidate is an
unsigned SUCCEEDED build. -/
theorem signingCycleGo_inv (env : KojiEnv) (key compose : String) (cands : List Build)
    (db : Db) (acc : List KojiCall)
    (hc : ∀ b ∈ cands, b.signed = false ∧ b.status = BuildStatus.SUCCEEDED)
    (hdb : SignedInvariant db) :
    SignedInvariant (signingCycleGo env key compose cands db acc).1 := by
  induction cands generalizing db acc with
  | nil => exact hdb
  | cons b rest ih =>
    simp only [signingCycleGo]
    cases hres : (atomic_sign_unsigned_builds env key compose b (packageNameOf db b.package_id)).2 with
    | none => exact hdb
    | some b2 =>
      refine ih _ _ (fun x hx => hc x (List.mem_cons_of_mem _ hx)) ?_
      intro x hx
      dsimp only at hx
      refine updateBuildIn_inv db.builds b.id b2 (fun ht => ?_) hdb x hx
      rcases sign_commit_shape env key compose b _ b2 hres with h1 | h2
      · rw [h1]
        exact (hc b (List.mem_cons_self _ _)).2
      · rw [h2] at ht
        rw [(hc b (List.mem_cons_self _ _)).1] at ht
        simp at ht

/-- One signing cycle preserves the invariant. -/
theorem signingCycle_inv (env : KojiEnv) (key compose : String) (disableSigul : Bool)
    (db : Db) (hdb : SignedInvariant db) :
    SignedInvariant (signingCycle env key compose disableSigul db).1 := by
  unfold signingCycle
  by_cases hd : disableSigul = true
  · rw [if_pos hd]
    exact hdb
  · rw [if_neg hd]
    refine signingCycleGo_inv env key compose _ db [] (fun b hb => ?_) hdb
    have hmem := List.mem_filter.mp hb
    have h2 := hmem.2
    simp [signingCandidate] at h2
    exact h2

/-- Claim C3: the signed-implies-SUCCEEDED invariant is preserved by one
status cycle and by one signing cycle; moreover every build the signing cycle
hands to the signing coordinator has status SUCCEEDED, and every build the
status cycle hands to the status reconciler is BUILDING and (by the
invariant) unsigned. -/
theorem C3_signed_invariant_preserved (senv : StatusEnv) (kenv : KojiEnv)
    (key compose : String) (disableSigul : Bool) (db : Db)
    (hdb : SignedInvariant db) :
    SignedInvariant (statusCycle senv db) ∧
    SignedInvariant (signingCycle kenv key compose disableSigul db).1 ∧
    (∀ b ∈ db.builds.filter signingCandidate, b.status = BuildStatus.SUCCEEDED) ∧
    (∀ b ∈ db.builds.filter statusCandidate,
      b.status = BuildStatus.BUILDING ∧ b.signed = false) := by
  refine ⟨statusCycle_inv senv db hdb, signingCycle_inv kenv key compose disableSigul db hdb,
    fun b hb => ?_, fun b hb => ?_⟩
  · have h2 := (List.mem_filter.mp hb).2
    simp [signingCandidate] at h2
    exact h2.2
  · have hmem := List.mem_filter.mp hb
    have h2 := hmem.2
    simp [statusCandidate] at h2
    refine ⟨h2, ?_⟩
    cases hbs : b.signed
    · rfl
    · have h3 := hdb b hmem.1 hbs
      rw [h3] at h2
      exact absurd h2 (by simp)

/-- Witness for C3 at a concrete record store satisfying the invariant, with
a CLOSED-reporting status backend and an always-failing signer. -/
theorem C3_signed_invariant_preserved_witness :
    SignedInvariant dbC3 ∧
    (SignedInvariant (statusCycle envC5 dbC3) ∧
     SignedInvariant (signingCycle envC8 keyC composeC false dbC3).1 ∧
     (∀ b ∈ dbC3.builds.filter signingCandidate, b.status = BuildStatus.SUCCEEDED) ∧
     (∀ b ∈ dbC3.builds.filter statusCandidate,
       b.status = BuildStatus.BUILDING ∧ b.signed = false)) :=
  ⟨by decide, C3_signed_invariant_preserved envC5 envC8 keyC composeC false dbC3 (by decide)⟩
